import Mathlib

/-
  Shallow embedding of src/mgmt.c (BlueZ management-channel driver).

  Modelling conventions:
  - Byte buffers are `List Nat` (each entry one byte); little-endian field
    reads mirror bt_get_le16 / bt_get_le32.
  - The global `controllers` array plus `max_index` become a `Registry`
    (`maxIndex : Int`, starting at -1, and `slots : List controller_info`).
  - Reading `&controllers[i]` is `memSlot`: within `slots` it is the stored
    record; beyond it (an out-of-bounds read in C) it yields `env.junk i`,
    the unspecified memory the process would see there.  `g_realloc`'s
    uninitialized fresh memory is modelled by the same `env.junk` oracle.
  - External collaborators (manager/adapter/device model, the SDP uuid
    library, the EIR parser) are parameters collected in `Env`; calls made
    to them and commands written to the management socket are recorded as
    an ordered `List Act`.  Socket writes are modelled as succeeding.
  - `abort()` is modelled by returning `none` from the dispatcher; every
    other failure path returns the unchanged state (message dropped).
-/

/-mgmt opcode constants (kernel mgmt ABI, version 1). -/

def MGMT_OP_READ_VERSION : Nat := 0x0001

def MGMT_OP_READ_INDEX_LIST : Nat := 0x0003

def MGMT_OP_READ_INFO : Nat := 0x0004

def MGMT_OP_SET_POWERED : Nat := 0x0005

def MGMT_OP_SET_DISCOVERABLE : Nat := 0x0006

def MGMT_OP_SET_CONNECTABLE : Nat := 0x0007

def MGMT_OP_SET_PAIRABLE : Nat := 0x0009

def MGMT_OP_SET_SSP : Nat := 0x000B

def MGMT_OP_SET_LE : Nat := 0x000D

def MGMT_OP_SET_DEV_CLASS : Nat := 0x000E

def MGMT_OP_SET_LOCAL_NAME : Nat := 0x000F

def MGMT_OP_ADD_UUID : Nat := 0x0010

def MGMT_OP_REMOVE_UUID : Nat := 0x0011

def MGMT_OP_DISCONNECT : Nat := 0x0014

def MGMT_OP_GET_CONNECTIONS : Nat := 0x0015

def MGMT_OP_PAIR_DEVICE : Nat := 0x0019

def MGMT_OP_READ_LOCAL_OOB_DATA : Nat := 0x0020

def MGMT_OP_START_DISCOVERY : Nat := 0x0023

def MGMT_EV_CMD_COMPLETE : Nat := 0x0001

def MGMT_EV_CMD_STATUS : Nat := 0x0002

def MGMT_EV_CONTROLLER_ERROR : Nat := 0x0003

def MGMT_EV_INDEX_ADDED : Nat := 0x0004

def MGMT_EV_INDEX_REMOVED : Nat := 0x0005

def MGMT_EV_NEW_SETTINGS : Nat := 0x0006

def MGMT_EV_CLASS_OF_DEV_CHANGED : Nat := 0x0007

def MGMT_EV_LOCAL_NAME_CHANGED : Nat := 0x0008

def MGMT_EV_NEW_LINK_KEY : Nat := 0x0009

def MGMT_EV_NEW_LONG_TERM_KEY : Nat := 0x000A

def MGMT_EV_DEVICE_CONNECTED : Nat := 0x000B

def MGMT_EV_DEVICE_DISCONNECTED : Nat := 0x000C

def MGMT_EV_CONNECT_FAILED : Nat := 0x000D

def MGMT_EV_PIN_CODE_REQUEST : Nat := 0x000E

def MGMT_EV_USER_CONFIRM_REQUEST : Nat := 0x000F

def MGMT_EV_USER_PASSKEY_REQUEST : Nat := 0x0010

def MGMT_EV_AUTH_FAILED : Nat := 0x0011

def MGMT_EV_DEVICE_FOUND : Nat := 0x0012

def MGMT_EV_DISCOVERING : Nat := 0x0013

def MGMT_EV_DEVICE_BLOCKED : Nat := 0x0014

def MGMT_EV_DEVICE_UNBLOCKED : Nat := 0x0015

def MGMT_EV_DEVICE_UNPAIRED : Nat := 0x0016

def MGMT_EV_PASSKEY_NOTIFY : Nat := 0x0017

def MGMT_SETTING_POWERED : Nat := 0x00000001

def MGMT_SETTING_CONNECTABLE : Nat := 0x00000002

def MGMT_SETTING_FAST_CONNECTABLE : Nat := 0x00000004

def MGMT_SETTING_DISCOVERABLE : Nat := 0x00000008

def MGMT_SETTING_PAIRABLE : Nat := 0x00000010

def MGMT_SETTING_SSP : Nat := 0x00000040

def MGMT_SETTING_BREDR : Nat := 0x00000080

def MGMT_SETTING_HS : Nat := 0x00000100

def MGMT_SETTING_LE : Nat := 0x00000200

def MGMT_STATUS_BUSY : Nat := 0x0A

def MGMT_STATUS_DISCONNECTED : Nat := 0x0E

def MGMT_DEV_FOUND_CONFIRM_NAME : Nat := 0x01

def MGMT_DEV_FOUND_LEGACY_PAIRING : Nat := 0x02

/-- bt_get_le16: read a little-endian 16-bit field at the start of a buffer. -/
def bt_get_le16 (b : List Nat) : Nat :=
  b.getD 0 0 + 256 * b.getD 1 0

/-- bt_get_le32: read a little-endian 32-bit field at the start of a buffer. -/
def bt_get_le32 (b : List Nat) : Nat :=
  b.getD 0 0 + 256 * b.getD 1 0 + 65536 * b.getD 2 0 + 16777216 * b.getD 3 0

/-- Read a 6-byte bdaddr_t at the start of a buffer, as one number. -/
def bdaddrOf (b : List Nat) : Nat :=
  b.getD 0 0 + 256 * b.getD 1 0 + 65536 * b.getD 2 0 + 16777216 * b.getD 3 0 +
    4294967296 * b.getD 4 0 + 1099511627776 * b.getD 5 0

/-- The SDP uuid_t type tag (SDP_UUID16 / SDP_UUID32 / SDP_UUID128). -/
inductive SdpUuidType where
  | uuid16
  | uuid32
  | uuid128
  deriving DecidableEq

/-- uuid_t: an SDP identifier value together with its type tag. -/
structure uuid_t where
  ty : SdpUuidType
  value : Nat
  deriving DecidableEq

/-- struct pending_uuid: one queued identifier add/remove request. -/
structure PendingUuid where
  add : Bool
  uuid : uuid_t
  svc_hint : Nat
  deriving DecidableEq

/-- struct controller_info: per-controller protocol state. -/
structure controller_info where
  valid : Bool
  bdaddr : Nat
  supported_settings : Nat
  current_settings : Nat
  connections : List Nat
  discov_type : Nat
  pending_uuid : Bool
  pending_uuids : List PendingUuid
  pending_class : Bool
  major : Nat
  minor : Nat
  pending_powered : Bool
  pending_cod_change : Bool
  deriving DecidableEq

/-- A fully zeroed controller_info record (memset 0). -/
def zero_info : controller_info :=
  { valid := false, bdaddr := 0, supported_settings := 0, current_settings := 0,
    connections := [], discov_type := 0, pending_uuid := false, pending_uuids := [],
    pending_class := false, major := 0, minor := 0, pending_powered := false,
    pending_cod_change := false }

/-- Outbound commands written to the mgmt socket and calls made against the
external adapter/device collaborators, in program order. -/
inductive Act where
  | sendReadIndexList
  | sendReadInfo (index : Nat)
  | sendGetConnections (index : Nat)
  | sendSetMode (index : Nat) (opcode : Nat) (val : Nat)
  | sendSetLocalName (index : Nat) (name : List Nat)
  | sendSetDevClass (index : Nat) (major : Nat) (minor : Nat)
  | sendAddUuid (index : Nat) (uuid : uuid_t) (hint : Nat)
  | sendRemoveUuid (index : Nat) (uuid : uuid_t)
  | sendPinCodeReply (index : Nat) (peer : Nat) (neg : Bool)
  | sendConfirmReply (index : Nat) (peer : Nat) (success : Bool)
  | sendPasskeyReply (index : Nat) (peer : Nat) (neg : Bool)
  | adapterStop (a : Nat)
  | adapterStart (a : Nat)
  | updateConnectable (b : Bool)
  | updateDiscoverable (b : Bool)
  | updatePairable (b : Bool)
  | adapterNameChanged (name : List Nat)
  | classChanged (val : List Nat)
  | bondingComplete (peer : Nat) (status : Nat)
  | addConnection (peer : Nat)
  | removeConnection (peer : Nat)
  | deviceFound (peer : Nat) (ptype : Nat) (rssi : Nat) (confirmName : Bool)
      (legacy : Bool) (eir : List Nat)
  | setDiscovering (b : Bool)
  | oobDataComplete (ok : Bool)
  | registerAdapterCall (index : Nat) (powered : Bool)
  | unregisterAdapter (index : Nat)
  | storeLinkKey (peer : Nat)
  | setBonded (peer : Nat)
  | setTemporary (peer : Nat) (b : Bool)
  | deviceBlockedSet (peer : Nat) (b : Bool)
  | removeDevice (peer : Nat)
  | cancelBonding (peer : Nat) (status : Nat)
  | requestPincodeCall (peer : Nat)
  | notifyPincodeCall (peer : Nat)
  | requestPasskeyCall (peer : Nat)
  | notifyPasskeyCall (peer : Nat)
  | confirmPasskeyCall (peer : Nat)
  | requestDisconnect (peer : Nat)
  | storeCachedName (peer : Nat) (name : List Nat)
  | setDeviceName (peer : Nat) (name : List Nat)
  | setDeviceClassOf (peer : Nat) (cls : Nat)
  | storeLtk (peer : Nat)
  deriving DecidableEq

/-- The external world: collaborator lookups/results, the SDP uuid library,
the EIR parser, and the contents of uninitialized or out-of-bounds memory. -/
structure Env where
  junk : Nat → controller_info
  findAdapter : Nat → Bool
  findAdapterById : Nat → Bool
  getDevice : Nat → Nat → Nat → Bool
  findDevice : Nat → Nat → Bool
  registerAdapter : Nat → Bool
  adapterName : Nat → Option (List Nat)
  adapterMajor : Nat → Nat
  adapterMinor : Nat → Nat
  getPin : Nat → Nat → Int
  getPinDisplay : Nat → Nat → Bool
  deviceIsBonding : Nat → Bool
  deviceIsTemporary : Nat → Bool
  deviceIsConnected : Nat → Bool
  notifyPincodeOk : Bool
  requestPincodeOk : Bool
  requestPasskeyOk : Bool
  notifyPasskeyOk : Bool
  confirmPasskeyOk : Bool
  eirClass : List Nat → Nat
  eirName : List Nat → Option (List Nat)
  sdp16to128 : uuid_t → uuid_t
  sdp32to128 : uuid_t → uuid_t
  sdp128toUuid : uuid_t → Option uuid_t

/-- The controller table: `max_index` (starts at -1) and the realloc'd array. -/
structure Registry where
  maxIndex : Int
  slots : List controller_info
  deriving DecidableEq

/-- The empty registry at startup: max_index = -1, no storage. -/
def emptyRegistry : Registry := { maxIndex := -1, slots := [] }

/-- Read `&controllers[i]`: the stored slot inside the array, or the
unspecified memory `env.junk i` when the C code indexes out of bounds. -/
def memSlot (env : Env) (r : Registry) (i : Nat) : controller_info :=
  r.slots.getD i (env.junk i)

/-- Write `controllers[i]` (a no-op when the index is outside the array,
where the C write would be undefined behaviour). -/
def setSlot (r : Registry) (i : Nat) (v : controller_info) : Registry :=
  { r with slots := r.slots.set i v }

/-- mgmt_powered(settings). -/
def mgmt_powered (settings : Nat) : Bool :=
  settings &&& MGMT_SETTING_POWERED != 0

/-- mgmt_connectable(settings). -/
def mgmt_connectable (settings : Nat) : Bool :=
  settings &&& MGMT_SETTING_CONNECTABLE != 0

/-- mgmt_discoverable(settings). -/
def mgmt_discoverable (settings : Nat) : Bool :=
  settings &&& MGMT_SETTING_DISCOVERABLE != 0

/-- mgmt_pairable(settings). -/
def mgmt_pairable (settings : Nat) : Bool :=
  settings &&& MGMT_SETTING_PAIRABLE != 0

/-- mgmt_ssp(settings). -/
def mgmt_ssp (settings : Nat) : Bool :=
  settings &&& MGMT_SETTING_SSP != 0

/-- mgmt_bredr(settings). -/
def mgmt_bredr (settings : Nat) : Bool :=
  settings &&& MGMT_SETTING_BREDR != 0

/-- mgmt_low_energy(settings). -/
def mgmt_low_energy (settings : Nat) : Bool :=
  settings &&& MGMT_SETTING_LE != 0

/-- uuid_to_uuid128: widen a uuid to its 128-bit form via the SDP library. -/
def uuid_to_uuid128 (env : Env) (u : uuid_t) : uuid_t :=
  if u.ty = SdpUuidType.uuid16 then env.sdp16to128 u
  else if u.ty = SdpUuidType.uuid32 then env.sdp32to128 u
  else u

/-- is_16bit_uuid: true for the all-zero wildcard 128-bit uuid, or when the
widened uuid reduces (sdp_uuid128_to_uuid) back to a 16-bit uuid. -/
def is_16bit_uuid (env : Env) (u : uuid_t) : Bool :=
  if u.ty = SdpUuidType.uuid128 ∧ u.value = 0 then true
  else
    match env.sdp128toUuid (uuid_to_uuid128 env u) with
    | none => false
    | some tmp => if tmp.ty = SdpUuidType.uuid16 then true else false

/-- The all-zero wildcard uuid used by clear_uuids (memset 0, type UUID128). -/
def uuid_any : uuid_t := { ty := SdpUuidType.uuid128, value := 0 }

/-- mgmt_add_uuid: ignore non-16-bit uuids; queue behind an in-flight
identifier operation; otherwise transmit MGMT_OP_ADD_UUID and mark in-flight. -/
def mgmt_add_uuid (env : Env) (index : Nat) (info : controller_info)
    (uuid : uuid_t) (svc_hint : Nat) : Int × controller_info × List Act :=
  if !(is_16bit_uuid env uuid) then (0, info, [])
  else if info.pending_uuid then
    (0, { info with pending_uuids :=
            info.pending_uuids ++ [{ add := true, uuid := uuid, svc_hint := svc_hint }] },
     [])
  else
    (0, { info with pending_uuid := true },
     [Act.sendAddUuid index (uuid_to_uuid128 env uuid) svc_hint])

/-- mgmt_remove_uuid: ignore non-16-bit uuids; queue behind an in-flight
identifier operation; otherwise transmit MGMT_OP_REMOVE_UUID and mark in-flight. -/
def mgmt_remove_uuid (env : Env) (index : Nat) (info : controller_info)
    (uuid : uuid_t) : Int × controller_info × List Act :=
  if !(is_16bit_uuid env uuid) then (0, info, [])
  else if info.pending_uuid then
    (0, { info with pending_uuids :=
            info.pending_uuids ++ [{ add := false, uuid := uuid, svc_hint := 0 }] },
     [])
  else
    (0, { info with pending_uuid := true },
     [Act.sendRemoveUuid index (uuid_to_uuid128 env uuid)])

/-- clear_uuids: remove the wildcard (all services) uuid. -/
def clear_uuids (env : Env) (index : Nat) (info : controller_info) :
    Int × controller_info × List Act :=
  mgmt_remove_uuid env index info uuid_any

/-- mgmt_set_powered: a power-on request is deferred while an identifier
operation is in flight; a power-off request clears any deferred power-on
and is always transmitted. -/
def mgmt_set_powered (index : Nat) (info : controller_info) (powered : Bool) :
    Int × controller_info × List Act :=
  if powered then
    if info.pending_uuid then (0, { info with pending_powered := true }, [])
    else (0, info, [Act.sendSetMode index MGMT_OP_SET_POWERED 1])
  else
    (0, { info with pending_powered := false },
     [Act.sendSetMode index MGMT_OP_SET_POWERED 0])

/-- mgmt_set_dev_class: deferred while an identifier operation is in flight,
otherwise transmitted directly. -/
def mgmt_set_dev_class (index : Nat) (info : controller_info)
    (major minor : Nat) : Int × controller_info × List Act :=
  if info.pending_uuid then
    (0, { info with major := major, minor := minor, pending_class := true }, [])
  else
    (0, info, [Act.sendSetDevClass index major minor])

/-- g_slist_remove: drop the first occurrence of an element from a list. -/
def removeFirst {α : Type} [DecidableEq α] : List α → α → List α
  | [], _ => []
  | x :: xs, a => if x = a then xs else x :: removeFirst xs a

/-- handle_pending_uuids: clear the in-flight flag; with an empty queue flush
a deferred class change and then a deferred power-on; otherwise pop the
front queue entry and send it. -/
def handle_pending_uuids (env : Env) (index : Nat) (info : controller_info) :
    controller_info × List Act :=
  let info0 := { info with pending_uuid := false }
  match info0.pending_uuids with
  | [] =>
    let s1 :=
      if info0.pending_class then
        let infoA := { info0 with pending_class := false }
        let r := mgmt_set_dev_class index infoA infoA.major infoA.minor
        (r.2.1, r.2.2)
      else (info0, [])
    let s2 :=
      if s1.1.pending_powered then
        let infoB := { s1.1 with pending_powered := false }
        let r := mgmt_set_powered index infoB true
        (r.2.1, r.2.2)
      else (s1.1, [])
    (s2.1, s1.2 ++ s2.2)
  | pending :: _ =>
    let r :=
      if pending.add then mgmt_add_uuid env index info0 pending.uuid pending.svc_hint
      else mgmt_remove_uuid env index info0 pending.uuid
    ({ r.2.1 with pending_uuids := removeFirst r.2.1.pending_uuids pending }, r.2.2)

/-- Stimuli of the per-controller identifier state machine: an add/remove
request from the upper layer, or arrival of the in-flight operation's
completion event (mgmt_add_uuid_complete / mgmt_remove_uuid_complete both
run mgmt_update_cod, which never touches pending state nor sends an
identifier command, and then handle_pending_uuids). -/
inductive UuidEv where
  | req (add : Bool) (u : uuid_t) (hint : Nat)
  | complete
  deriving DecidableEq

/-- One step of the per-controller identifier state machine. -/
def uuidStep (env : Env) (index : Nat) (info : controller_info) :
    UuidEv → controller_info × List Act
  | UuidEv.req true u h => ((mgmt_add_uuid env index info u h).2.1,
      (mgmt_add_uuid env index info u h).2.2)
  | UuidEv.req false u _ => ((mgmt_remove_uuid env index info u).2.1,
      (mgmt_remove_uuid env index info u).2.2)
  | UuidEv.complete => handle_pending_uuids env index info

/-- Run a sequence of identifier-machine events, concatenating the emitted
actions in order. -/
def runUuid (env : Env) (index : Nat) (info : controller_info) :
    List UuidEv → controller_info × List Act
  | [] => (info, [])
  | e :: es =>
    let s1 := uuidStep env index info e
    let s2 := runUuid env index s1.1 es
    (s2.1, s1.2 ++ s2.2)

/-- Is an action the transmission of an identifier add/remove command? -/
def isUuidSend : Act → Bool
  | Act.sendAddUuid _ _ _ => true
  | Act.sendRemoveUuid _ _ => true
  | _ => false

/-- The identifier commands among a list of actions. -/
def uuidSends (l : List Act) : List Act :=
  l.filter isUuidSend

/-- add_controller: grow the array with g_realloc when the index exceeds
max_index (fresh slots keep whatever `env.junk` says realloc's new memory
holds — g_realloc does not zero it), then zero slot `index` and mark it
valid. -/
def add_controller (env : Env) (r : Registry) (index : Nat) : Registry :=
  let r1 :=
    if (index : Int) > r.maxIndex then
      { maxIndex := (index : Int),
        slots := r.slots ++
          (List.range (index + 1 - r.slots.length)).map
            (fun k => env.junk (r.slots.length + k)) }
    else r
  setSlot r1 index { zero_info with valid := true }

/-- remove_controller: ignore out-of-range or invalid slots; otherwise
unregister the adapter, release the queued identifier list and zero the slot. -/
def remove_controller (env : Env) (r : Registry) (index : Nat) :
    Registry × List Act :=
  if (index : Int) > r.maxIndex then (r, [])
  else if !(memSlot env r index).valid then (r, [])
  else (setSlot r index zero_info, [Act.unregisterAdapter index])

/-- mgmt_index_added: register the controller and request its info block. -/
def mgmt_index_added (env : Env) (r : Registry) (index : Nat) :
    Registry × List Act :=
  (add_controller env r index, [Act.sendReadInfo index])

/-- mgmt_index_removed. -/
def mgmt_index_removed (env : Env) (r : Registry) (index : Nat) :
    Registry × List Act :=
  remove_controller env r index

/-- update_settings: push connectable/discoverable/pairable to the adapter. -/
def update_settings (settings : Nat) : List Act :=
  [Act.updateConnectable (mgmt_connectable settings),
   Act.updateDiscoverable (mgmt_discoverable settings),
   Act.updatePairable (mgmt_pairable settings)]

/-- mgmt_update_powered: on power-off, stop the adapter and discard the
queued identifier operations, the in-flight flag, the queued class change
and the class-change-busy flag (pending_powered is left untouched); on
power-on, start the adapter and push the remaining settings. -/
def mgmt_update_powered (info : controller_info) (settings : Nat) :
    controller_info × List Act :=
  if !(mgmt_powered settings) then
    ({ info with pending_uuids := [], pending_uuid := false,
                 pending_class := false, pending_cod_change := false },
     [Act.adapterStop info.bdaddr])
  else
    (info, Act.adapterStart info.bdaddr :: update_settings settings)

/-- mgmt_new_settings: decode the settings bitmask, dispatch on the powered
transition, and unconditionally store the new bitmask at the end. -/
def mgmt_new_settings (env : Env) (r : Registry) (index : Nat)
    (buf : List Nat) : Registry × List Act :=
  if buf.length < 4 then (r, [])
  else if (index : Int) > r.maxIndex then (r, [])
  else
    let info := memSlot env r index
    if !(env.findAdapter info.bdaddr) then (r, [])
    else
      let settings := bt_get_le32 buf
      let old_power := mgmt_powered info.current_settings
      let new_power := mgmt_powered settings
      let s1 :=
        if new_power != old_power then mgmt_update_powered info settings
        else (info, update_settings settings)
      (setSlot r index { s1.1 with current_settings := settings }, s1.2)

/-- get_adapter_and_device: adapter lookup by local address, then device
lookup/creation by peer address; the boolean pair is (call succeeded,
device pointer non-null). -/
def get_adapter_and_device (env : Env) (src peer ptype : Nat) (create : Bool) :
    Bool × Bool :=
  if !(env.findAdapter src) then (false, false)
  else
    let dev := if create then env.getDevice src peer ptype
               else env.findDevice src peer
    if create && !dev then (false, false) else (true, dev)

/-- bonding_complete: notify the adapter (when found) of a bonding result. -/
def bonding_complete_acts (env : Env) (info : controller_info)
    (peer status : Nat) : List Act :=
  if env.findAdapter info.bdaddr then [Act.bondingComplete peer status] else []

/-- mgmt_new_link_key (exact 26-byte event). -/
def mgmt_new_link_key (env : Env) (r : Registry) (index : Nat)
    (buf : List Nat) : Registry × List Act :=
  if buf.length ≠ 26 then (r, [])
  else if (index : Int) > r.maxIndex then (r, [])
  else if buf.getD 25 0 > 16 then (r, [])
  else
    let info := memSlot env r index
    let peer := bdaddrOf (buf.drop 1)
    let g := get_adapter_and_device env info.bdaddr peer (buf.getD 7 0) true
    if !g.1 then (r, [])
    else
      let a1 :=
        if buf.getD 0 0 ≠ 0 then
          [Act.storeLinkKey peer, Act.setBonded peer] ++
            (if env.deviceIsTemporary peer then [Act.setTemporary peer false]
             else [])
        else []
      (r, a1 ++ [Act.bondingComplete peer 0])

/-- mgmt_device_connected: 13-byte fixed part; requires only at-least
`13 + eir_len` bytes (extra trailing bytes are accepted). -/
def mgmt_device_connected (env : Env) (r : Registry) (index : Nat)
    (buf : List Nat) : Registry × List Act :=
  if buf.length < 13 then (r, [])
  else
    let eir_len := bt_get_le16 (buf.drop 11)
    if buf.length < 13 + eir_len then (r, [])
    else if (index : Int) > r.maxIndex then (r, [])
    else
      let info := memSlot env r index
      let peer := bdaddrOf buf
      let g := get_adapter_and_device env info.bdaddr peer (buf.getD 6 0) true
      if !g.1 then (r, [])
      else
        let eir := (buf.drop 13).take eir_len
        let cls := if eir_len > 0 then env.eirClass eir else 0
        let nm := if eir_len > 0 then env.eirName eir else none
        let a1 := if cls ≠ 0 then [Act.setDeviceClassOf peer cls] else []
        let a3 :=
          match nm with
          | some n => [Act.storeCachedName peer n, Act.setDeviceName peer n]
          | none => []
        (r, a1 ++ [Act.addConnection peer] ++ a3)

/-- mgmt_device_disconnected (7-byte addr prefix; reason optional). -/
def mgmt_device_disconnected (env : Env) (r : Registry) (index : Nat)
    (buf : List Nat) : Registry × List Act :=
  if buf.length < 7 then (r, [])
  else if (index : Int) > r.maxIndex then (r, [])
  else
    let info := memSlot env r index
    let peer := bdaddrOf buf
    let g := get_adapter_and_device env info.bdaddr peer (buf.getD 6 0) false
    if !g.1 then (r, [])
    else if g.2 then (r, [Act.removeConnection peer])
    else (r, [])

/-- mgmt_connect_failed. -/
def mgmt_connect_failed (env : Env) (r : Registry) (index : Nat)
    (buf : List Nat) : Registry × List Act :=
  if buf.length < 8 then (r, [])
  else if (index : Int) > r.maxIndex then (r, [])
  else
    let info := memSlot env r index
    let peer := bdaddrOf buf
    let status := buf.getD 7 0
    let g := get_adapter_and_device env info.bdaddr peer (buf.getD 6 0) false
    if !g.1 then (r, [])
    else
      let a1 :=
        if g.2 then
          (if env.deviceIsBonding peer then [Act.cancelBonding peer status]
           else []) ++
          (if env.deviceIsTemporary peer then [Act.removeDevice peer] else [])
        else []
      (r, a1 ++ [Act.bondingComplete peer status])

/-- mgmt_pincode_reply: negative replies always go out; a positive reply
with a pin longer than 16 bytes is refused with -EINVAL (not written). -/
def mgmt_pincode_reply_acts (index peer : Nat) (neg : Bool) (pinlen : Int) :
    List Act :=
  if neg then [Act.sendPinCodeReply index peer true]
  else if pinlen > 16 then []
  else [Act.sendPinCodeReply index peer false]

/-- mgmt_pin_code_request. -/
def mgmt_pin_code_request (env : Env) (r : Registry) (index : Nat)
    (buf : List Nat) : Registry × List Act :=
  if buf.length < 8 then (r, [])
  else if (index : Int) > r.maxIndex then (r, [])
  else
    let info := memSlot env r index
    let peer := bdaddrOf buf
    let secure := buf.getD 7 0 ≠ 0
    let g := get_adapter_and_device env info.bdaddr peer (buf.getD 6 0) true
    if !g.1 then (r, [])
    else
      let pinlen := env.getPin info.bdaddr peer
      let display := env.getPinDisplay info.bdaddr peer
      if pinlen > 0 ∧ (¬secure ∨ pinlen = 16) then
        if display ∧ env.deviceIsBonding peer then
          if env.notifyPincodeOk then (r, [Act.notifyPincodeCall peer])
          else (r, Act.notifyPincodeCall peer ::
                     mgmt_pincode_reply_acts index peer true 0)
        else (r, mgmt_pincode_reply_acts index peer false pinlen)
      else
        if env.requestPincodeOk then (r, [Act.requestPincodeCall peer])
        else (r, Act.requestPincodeCall peer ::
                   mgmt_pincode_reply_acts index peer true 0)

/-- mgmt_user_confirm_request. -/
def mgmt_user_confirm_request (env : Env) (r : Registry) (index : Nat)
    (buf : List Nat) : Registry × List Act :=
  if buf.length < 12 then (r, [])
  else if (index : Int) > r.maxIndex then (r, [])
  else
    let info := memSlot env r index
    let peer := bdaddrOf buf
    let g := get_adapter_and_device env info.bdaddr peer (buf.getD 6 0) true
    if !g.1 then (r, [])
    else if env.confirmPasskeyOk then (r, [Act.confirmPasskeyCall peer])
    else (r, [Act.confirmPasskeyCall peer, Act.sendConfirmReply index peer false])

/-- mgmt_passkey_request. -/
def mgmt_passkey_request (env : Env) (r : Registry) (index : Nat)
    (buf : List Nat) : Registry × List Act :=
  if buf.length < 7 then (r, [])
  else if (index : Int) > r.maxIndex then (r, [])
  else
    let info := memSlot env r index
    let peer := bdaddrOf buf
    let g := get_adapter_and_device env info.bdaddr peer (buf.getD 6 0) true
    if !g.1 then (r, [])
    else if env.requestPasskeyOk then (r, [Act.requestPasskeyCall peer])
    else (r, [Act.requestPasskeyCall peer, Act.sendPasskeyReply index peer true])

/-- mgmt_passkey_notify. -/
def mgmt_passkey_notify (env : Env) (r : Registry) (index : Nat)
    (buf : List Nat) : Registry × List Act :=
  if buf.length < 12 then (r, [])
  else if (index : Int) > r.maxIndex then (r, [])
  else
    let info := memSlot env r index
    let peer := bdaddrOf buf
    let g := get_adapter_and_device env info.bdaddr peer (buf.getD 6 0) true
    if !g.1 then (r, [])
    else (r, [Act.notifyPasskeyCall peer])

/-- mgmt_auth_failed. -/
def mgmt_auth_failed (env : Env) (r : Registry) (index : Nat)
    (buf : List Nat) : Registry × List Act :=
  if buf.length < 8 then (r, [])
  else if (index : Int) > r.maxIndex then (r, [])
  else
    (r, bonding_complete_acts env (memSlot env r index) (bdaddrOf buf)
          (buf.getD 7 0))

/-- mgmt_local_name_changed (260-byte name event). -/
def mgmt_local_name_changed (env : Env) (r : Registry) (index : Nat)
    (buf : List Nat) : Registry × List Act :=
  if buf.length < 260 then (r, [])
  else if (index : Int) > r.maxIndex then (r, [])
  else
    let info := memSlot env r index
    if env.findAdapter info.bdaddr then
      (r, [Act.adapterNameChanged (buf.take 249)])
    else (r, [])

/-- mgmt_device_found: 14-byte fixed part; requires total length exactly
`14 + eir_len`. -/
def mgmt_device_found (env : Env) (r : Registry) (index : Nat)
    (buf : List Nat) : Registry × List Act :=
  if buf.length < 14 then (r, [])
  else
    let eir_len := bt_get_le16 (buf.drop 12)
    if buf.length ≠ 14 + eir_len then (r, [])
    else if (index : Int) > r.maxIndex then (r, [])
    else
      let info := memSlot env r index
      if !(env.findAdapter info.bdaddr) then (r, [])
      else
        let eir := if eir_len = 0 then [] else (buf.drop 14).take eir_len
        let flags := bt_get_le32 (buf.drop 8)
        let confirm_name := flags &&& MGMT_DEV_FOUND_CONFIRM_NAME != 0
        let legacy := flags &&& MGMT_DEV_FOUND_LEGACY_PAIRING != 0
        (r, [Act.deviceFound (bdaddrOf buf) (buf.getD 6 0) (buf.getD 7 0)
               confirm_name legacy eir])

/-- mgmt_discovering. -/
def mgmt_discovering (env : Env) (r : Registry) (index : Nat)
    (buf : List Nat) : Registry × List Act :=
  if buf.length < 2 then (r, [])
  else if (index : Int) > r.maxIndex then (r, [])
  else
    let info := memSlot env r index
    if !(env.findAdapter info.bdaddr) then (r, [])
    else (r, [Act.setDiscovering (buf.getD 1 0 ≠ 0)])

/-- mgmt_device_blocked. -/
def mgmt_device_blocked (env : Env) (r : Registry) (index : Nat)
    (buf : List Nat) : Registry × List Act :=
  if buf.length < 7 then (r, [])
  else if (index : Int) > r.maxIndex then (r, [])
  else
    let info := memSlot env r index
    let peer := bdaddrOf buf
    let g := get_adapter_and_device env info.bdaddr peer (buf.getD 6 0) false
    if !g.1 then (r, [])
    else if g.2 then (r, [Act.deviceBlockedSet peer true])
    else (r, [])

/-- mgmt_device_unblocked. -/
def mgmt_device_unblocked (env : Env) (r : Registry) (index : Nat)
    (buf : List Nat) : Registry × List Act :=
  if buf.length < 7 then (r, [])
  else if (index : Int) > r.maxIndex then (r, [])
  else
    let info := memSlot env r index
    let peer := bdaddrOf buf
    let g := get_adapter_and_device env info.bdaddr peer (buf.getD 6 0) false
    if !g.1 then (r, [])
    else if g.2 then (r, [Act.deviceBlockedSet peer false])
    else (r, [])

/-- mgmt_device_unpaired. -/
def mgmt_device_unpaired (env : Env) (r : Registry) (index : Nat)
    (buf : List Nat) : Registry × List Act :=
  if buf.length < 7 then (r, [])
  else if (index : Int) > r.maxIndex then (r, [])
  else
    let info := memSlot env r index
    let peer := bdaddrOf buf
    let g := get_adapter_and_device env info.bdaddr peer (buf.getD 6 0) false
    if !g.1 then (r, [])
    else if !g.2 then (r, [])
    else
      (r, Act.setTemporary peer true ::
            (if env.deviceIsConnected peer then [Act.requestDisconnect peer]
             else [Act.removeDevice peer]))

/-- mgmt_new_ltk (exact 37-byte event). -/
def mgmt_new_ltk (env : Env) (r : Registry) (index : Nat)
    (buf : List Nat) : Registry × List Act :=
  if buf.length ≠ 37 then (r, [])
  else if (index : Int) > r.maxIndex then (r, [])
  else
    let info := memSlot env r index
    let peer := bdaddrOf (buf.drop 1)
    let g := get_adapter_and_device env info.bdaddr peer (buf.getD 7 0) true
    if !g.1 then (r, [])
    else
      let a1 :=
        if buf.getD 0 0 ≠ 0 then
          [Act.storeLtk peer, Act.setBonded peer] ++
            (if env.deviceIsTemporary peer then [Act.setTemporary peer false]
             else [])
        else []
      let a2 :=
        if buf.getD 9 0 ≠ 0 then bonding_complete_acts env info peer 0 else []
      (r, a1 ++ a2)

/-- mgmt_controller_error: log-only. -/
def mgmt_controller_error (_env : Env) (r : Registry) (_index : Nat)
    (buf : List Nat) : Registry × List Act :=
  if buf.length < 1 then (r, []) else (r, [])

/-- mgmt_update_cod: class-of-device update pushed to the adapter.  Note it
reads `&controllers[index]` with no index check of its own. -/
def mgmt_update_cod (env : Env) (r : Registry) (index : Nat)
    (buf : List Nat) : Registry × List Act :=
  if buf.length < 3 then (r, [])
  else
    let info := memSlot env r index
    if !(env.findAdapter info.bdaddr) then (r, [])
    else (r, [Act.classChanged (buf.take 3)])

/-- mgmt_add_uuid_complete: update the class of device, then drive the
pending identifier queue. -/
def mgmt_add_uuid_complete (env : Env) (r : Registry) (index : Nat)
    (buf : List Nat) : Registry × List Act :=
  if (index : Int) > r.maxIndex then (r, [])
  else
    let s1 := mgmt_update_cod env r index buf
    let s2 := handle_pending_uuids env index (memSlot env s1.1 index)
    (setSlot s1.1 index s2.1, s1.2 ++ s2.2)

/-- mgmt_remove_uuid_complete: same shape as mgmt_add_uuid_complete. -/
def mgmt_remove_uuid_complete (env : Env) (r : Registry) (index : Nat)
    (buf : List Nat) : Registry × List Act :=
  if (index : Int) > r.maxIndex then (r, [])
  else
    let s1 := mgmt_update_cod env r index buf
    let s2 := handle_pending_uuids env index (memSlot env s1.1 index)
    (setSlot s1.1 index s2.1, s1.2 ++ s2.2)

/-- read_version_complete: abort on an undersized reply or a version below
1; otherwise record version/revision and request the index list. -/
def read_version_complete (buf : List Nat) :
    Option (Nat × Nat × List Act) :=
  if buf.length < 3 then none
  else if buf.getD 0 0 < 1 then none
  else some (buf.getD 0 0, bt_get_le16 (buf.drop 1), [Act.sendReadIndexList])

/-- read_index_list_complete: exact-length check, then register each index
and request its info block. -/
def read_index_list_complete (env : Env) (r : Registry) (buf : List Nat) :
    Registry × List Act :=
  if buf.length < 2 then (r, [])
  else
    let num := bt_get_le16 buf
    if num * 2 + 2 ≠ buf.length then (r, [])
    else
      (List.range num).foldl
        (fun (p : Registry × List Act) i =>
          let idx := bt_get_le16 (buf.drop (2 + 2 * i))
          (add_controller env p.1 idx, p.2 ++ [Act.sendReadInfo idx]))
        (r, [])

/-- read_info_complete (280-byte reply): store the address and both
settings bitmasks, clear stale identifier registrations, register the
adapter, and run the bring-up sequence. -/
def read_info_complete (env : Env) (r : Registry) (index : Nat)
    (buf : List Nat) : Registry × List Act :=
  if buf.length < 280 then (r, [])
  else if (index : Int) > r.maxIndex then (r, [])
  else
    let info0 := memSlot env r index
    let info1 := { info0 with bdaddr := bdaddrOf buf,
                              supported_settings := bt_get_le32 (buf.drop 9),
                              current_settings := bt_get_le32 (buf.drop 13) }
    let cu := clear_uuids env index info1
    let info2 := cu.2.1
    let a1 := cu.2.2
    let powered := mgmt_powered info2.current_settings
    let aReg := [Act.registerAdapterCall index powered]
    if !(env.registerAdapter index) then (setSlot r index info2, a1 ++ aReg)
    else
      let a2 := update_settings info2.current_settings
      let a3 :=
        match env.adapterName index with
        | some n => [Act.sendSetLocalName index n]
        | none => [Act.adapterNameChanged ((buf.drop 20).take 249)]
      let dc := mgmt_set_dev_class index info2 (env.adapterMajor index)
                  (env.adapterMinor index)
      let info3 := dc.2.1
      let a4 := dc.2.2
      let a5 := if !(mgmt_pairable info3.current_settings) then
                  [Act.sendSetMode index MGMT_OP_SET_PAIRABLE 1] else []
      let a6 := if mgmt_ssp info3.supported_settings &&
                   !(mgmt_ssp info3.current_settings) then
                  [Act.sendSetMode index MGMT_OP_SET_SSP 1] else []
      let a7 := if mgmt_low_energy info3.supported_settings &&
                   !(mgmt_low_energy info3.current_settings) then
                  [Act.sendSetMode index MGMT_OP_SET_LE 1] else []
      let a8 := if mgmt_powered info3.current_settings then
                  [Act.sendGetConnections index, Act.adapterStart index]
                else []
      (setSlot r index info3, a1 ++ aReg ++ a2 ++ a3 ++ a4 ++ a5 ++ a6 ++ a7 ++ a8)

/-- disconnect_complete. -/
def disconnect_complete (env : Env) (r : Registry) (index : Nat)
    (status : Nat) (buf : List Nat) : Registry × List Act :=
  if buf.length < 7 then (r, [])
  else if status ≠ 0 then (r, [])
  else if (index : Int) > r.maxIndex then (r, [])
  else
    let info := memSlot env r index
    let peer := bdaddrOf buf
    let g := get_adapter_and_device env info.bdaddr peer (buf.getD 6 0) false
    if !g.1 then (r, [])
    else
      ((r : Registry),
       (if g.2 then [Act.removeConnection peer] else []) ++
         [Act.bondingComplete peer MGMT_STATUS_DISCONNECTED])

/-- pair_device_complete. -/
def pair_device_complete (env : Env) (r : Registry) (index : Nat)
    (status : Nat) (buf : List Nat) : Registry × List Act :=
  if buf.length < 7 then (r, [])
  else if (index : Int) > r.maxIndex then (r, [])
  else
    (r, bonding_complete_acts env (memSlot env r index) (bdaddrOf buf) status)

/-- get_connections_complete: note the length check uses a 6-byte stride
while entries are 7-byte mgmt_addr_info records, exactly as the C does. -/
def get_connections_complete (env : Env) (r : Registry) (index : Nat)
    (buf : List Nat) : Registry × List Act :=
  if buf.length < 2 then (r, [])
  else
    let count := bt_get_le16 buf
    if buf.length < 2 + count * 6 then (r, [])
    else if (index : Int) > r.maxIndex then (r, [])
    else
      let info := memSlot env r index
      let conns := (List.range count).map
        (fun i => bdaddrOf (buf.drop (2 + 7 * i)))
      (setSlot r index { info with connections := info.connections ++ conns },
       [])

/-- set_local_name_complete. -/
def set_local_name_complete (env : Env) (r : Registry) (index : Nat)
    (buf : List Nat) : Registry × List Act :=
  if buf.length < 260 then (r, [])
  else if (index : Int) > r.maxIndex then (r, [])
  else
    let info := memSlot env r index
    if !(env.findAdapter info.bdaddr) then (r, [])
    else (r, [Act.adapterNameChanged (buf.take 249)])

/-- read_local_oob_data_complete (exact 32-byte reply). -/
def read_local_oob_data_complete (env : Env) (r : Registry) (index : Nat)
    (buf : List Nat) : Registry × List Act :=
  if buf.length ≠ 32 then (r, [])
  else if (index : Int) > r.maxIndex then (r, [])
  else if env.findAdapterById index then (r, [Act.oobDataComplete true])
  else (r, [])

/-- start_discovery_complete (exact 1-byte reply). -/
def start_discovery_complete (env : Env) (r : Registry) (index : Nat)
    (status : Nat) (buf : List Nat) : Registry × List Act :=
  if buf.length ≠ 1 then (r, [])
  else if (index : Int) > r.maxIndex then (r, [])
  else if status = 0 then (r, [])
  else if env.findAdapterById index then (r, [Act.setDiscovering false])
  else (r, [])

/-- read_local_oob_data_failed (command-status path). -/
def read_local_oob_data_failed (env : Env) (r : Registry) (index : Nat) :
    Registry × List Act :=
  if (index : Int) > r.maxIndex then (r, [])
  else if env.findAdapterById index then (r, [Act.oobDataComplete false])
  else (r, [])

/-- mgmt_add_uuid_busy: mark the class-change-busy flag (note: the C reads
`&controllers[index]` with no index check). -/
def mgmt_add_uuid_busy (env : Env) (r : Registry) (index : Nat) :
    Registry × List Act :=
  (setSlot r index { memSlot env r index with pending_cod_change := true }, [])

/-- mgmt_cmd_status: a non-zero status is an asynchronous failure; a BUSY
status on ADD_UUID marks the deferred-retry flag instead of being treated
as a hard failure. -/
def mgmt_cmd_status (env : Env) (r : Registry) (index : Nat)
    (buf : List Nat) : Registry × List Act :=
  if buf.length < 3 then (r, [])
  else
    let opcode := bt_get_le16 buf
    let status := buf.getD 2 0
    if status = 0 then (r, [])
    else if opcode = MGMT_OP_READ_LOCAL_OOB_DATA then
      read_local_oob_data_failed env r index
    else if opcode = MGMT_OP_ADD_UUID then
      if status = MGMT_STATUS_BUSY then mgmt_add_uuid_busy env r index
      else (r, [])
    else (r, [])

/-- mgmt_cod_changed: when the class-change-busy flag is set this event is
the retry trigger — clear it and resume draining the identifier queue;
then push the class update. -/
def mgmt_cod_changed (env : Env) (r : Registry) (index : Nat)
    (buf : List Nat) : Registry × List Act :=
  if (index : Int) > r.maxIndex then (r, [])
  else
    let info := memSlot env r index
    let s1 :=
      if info.pending_cod_change then
        let s := handle_pending_uuids env index
                   { info with pending_cod_change := false }
        (setSlot r index s.1, s.2)
      else (r, [])
    let s2 := mgmt_update_cod env s1.1 index buf
    (s2.1, s1.2 ++ s2.2)

/-- Driver-wide state: the negotiated version/revision and the registry. -/
structure MgmtState where
  version : Nat
  revision : Nat
  reg : Registry
  deriving DecidableEq

/-- Initial driver state. -/
def initState : MgmtState := { version := 0, revision := 0, reg := emptyRegistry }

/-- Lift a registry-level handler result into the driver state. -/
def liftReg (s : MgmtState) (p : Registry × List Act) : MgmtState × List Act :=
  ({ s with reg := p.1 }, p.2)

/-- mgmt_cmd_complete: dispatch on the completed command's opcode.  `none`
models abort(); it can arise only from read_version_complete.  The opcodes
whose completion is log-only (load_link_keys, cancel_pair_device,
unpair_device, pin replies, set_io_capability, user_confirm replies,
remote OOB data, block/unblock, set_fast_connectable, stop_discovery,
set_device_id, unknown) all fall to the final catch-all. -/
def mgmt_cmd_complete (env : Env) (s : MgmtState) (index : Nat)
    (buf : List Nat) : Option (MgmtState × List Act) :=
  if buf.length < 3 then some (s, [])
  else
    let opcode := bt_get_le16 buf
    let status := buf.getD 2 0
    let data := buf.drop 3
    if opcode = MGMT_OP_READ_VERSION then
      (read_version_complete data).map
        (fun v => ({ s with version := v.1, revision := v.2.1 }, v.2.2))
    else if opcode = MGMT_OP_READ_INDEX_LIST then
      some (liftReg s (read_index_list_complete env s.reg data))
    else if opcode = MGMT_OP_READ_INFO then
      some (liftReg s (read_info_complete env s.reg index data))
    else if opcode = MGMT_OP_SET_POWERED then
      some (liftReg s (mgmt_new_settings env s.reg index data))
    else if opcode = MGMT_OP_SET_DISCOVERABLE then
      some (liftReg s (mgmt_new_settings env s.reg index data))
    else if opcode = MGMT_OP_SET_CONNECTABLE then
      some (liftReg s (mgmt_new_settings env s.reg index data))
    else if opcode = MGMT_OP_SET_PAIRABLE then
      some (liftReg s (mgmt_new_settings env s.reg index data))
    else if opcode = MGMT_OP_SET_SSP then
      some (liftReg s (mgmt_new_settings env s.reg index data))
    else if opcode = MGMT_OP_SET_LE then
      some (liftReg s (mgmt_new_settings env s.reg index data))
    else if opcode = MGMT_OP_ADD_UUID then
      some (liftReg s (mgmt_add_uuid_complete env s.reg index data))
    else if opcode = MGMT_OP_REMOVE_UUID then
      some (liftReg s (mgmt_remove_uuid_complete env s.reg index data))
    else if opcode = MGMT_OP_SET_DEV_CLASS then
      some (liftReg s (mgmt_update_cod env s.reg index
        (buf.take (buf.length - 3))))
    else if opcode = MGMT_OP_DISCONNECT then
      some (liftReg s (disconnect_complete env s.reg index status data))
    else if opcode = MGMT_OP_GET_CONNECTIONS then
      some (liftReg s (get_connections_complete env s.reg index data))
    else if opcode = MGMT_OP_PAIR_DEVICE then
      some (liftReg s (pair_device_complete env s.reg index status data))
    else if opcode = MGMT_OP_SET_LOCAL_NAME then
      some (liftReg s (set_local_name_complete env s.reg index data))
    else if opcode = MGMT_OP_READ_LOCAL_OOB_DATA then
      some (liftReg s (read_local_oob_data_complete env s.reg index data))
    else if opcode = MGMT_OP_START_DISCOVERY then
      some (liftReg s (start_discovery_complete env s.reg index status data))
    else some (s, [])

/-- mgmt_event: frame one packet (6-byte header, exact length match) and
dispatch by event opcode.  `none` models abort(). -/
def mgmt_event (env : Env) (s : MgmtState) (packet : List Nat) :
    Option (MgmtState × List Act) :=
  if packet.length < 6 then some (s, [])
  else
    let opcode := bt_get_le16 packet
    let index := bt_get_le16 (packet.drop 2)
    let len := bt_get_le16 (packet.drop 4)
    if packet.length ≠ 6 + len then some (s, [])
    else
      let payload := packet.drop 6
      if opcode = MGMT_EV_CMD_COMPLETE then
        mgmt_cmd_complete env s index payload
      else if opcode = MGMT_EV_CMD_STATUS then
        some (liftReg s (mgmt_cmd_status env s.reg index payload))
      else if opcode = MGMT_EV_CONTROLLER_ERROR then
        some (liftReg s (mgmt_controller_error env s.reg index payload))
      else if opcode = MGMT_EV_INDEX_ADDED then
        some (liftReg s (mgmt_index_added env s.reg index))
      else if opcode = MGMT_EV_INDEX_REMOVED then
        some (liftReg s (mgmt_index_removed env s.reg index))
      else if opcode = MGMT_EV_NEW_SETTINGS then
        some (liftReg s (mgmt_new_settings env s.reg index payload))
      else if opcode = MGMT_EV_CLASS_OF_DEV_CHANGED then
        some (liftReg s (mgmt_cod_changed env s.reg index payload))
      else if opcode = MGMT_EV_NEW_LINK_KEY then
        some (liftReg s (mgmt_new_link_key env s.reg index payload))
      else if opcode = MGMT_EV_DEVICE_CONNECTED then
        some (liftReg s (mgmt_device_connected env s.reg index payload))
      else if opcode = MGMT_EV_DEVICE_DISCONNECTED then
        some (liftReg s (mgmt_device_disconnected env s.reg index payload))
      else if opcode = MGMT_EV_CONNECT_FAILED then
        some (liftReg s (mgmt_connect_failed env s.reg index payload))
      else if opcode = MGMT_EV_PIN_CODE_REQUEST then
        some (liftReg s (mgmt_pin_code_request env s.reg index payload))
      else if opcode = MGMT_EV_USER_CONFIRM_REQUEST then
        some (liftReg s (mgmt_user_confirm_request env s.reg index payload))
      else if opcode = MGMT_EV_AUTH_FAILED then
        some (liftReg s (mgmt_auth_failed env s.reg index payload))
      else if opcode = MGMT_EV_LOCAL_NAME_CHANGED then
        some (liftReg s (mgmt_local_name_changed env s.reg index payload))
      else if opcode = MGMT_EV_DEVICE_FOUND then
        some (liftReg s (mgmt_device_found env s.reg index payload))
      else if opcode = MGMT_EV_DISCOVERING then
        some (liftReg s (mgmt_discovering env s.reg index payload))
      else if opcode = MGMT_EV_DEVICE_BLOCKED then
        some (liftReg s (mgmt_device_blocked env s.reg index payload))
      else if opcode = MGMT_EV_DEVICE_UNBLOCKED then
        some (liftReg s (mgmt_device_unblocked env s.reg index payload))
      else if opcode = MGMT_EV_DEVICE_UNPAIRED then
        some (liftReg s (mgmt_device_unpaired env s.reg index payload))
      else if opcode = MGMT_EV_USER_PASSKEY_REQUEST then
        some (liftReg s (mgmt_passkey_request env s.reg index payload))
      else if opcode = MGMT_EV_PASSKEY_NOTIFY then
        some (liftReg s (mgmt_passkey_notify env s.reg index payload))
      else if opcode = MGMT_EV_NEW_LONG_TERM_KEY then
        some (liftReg s (mgmt_new_ltk env s.reg index payload))
      else some (s, [])

/-- A concrete environment for witnesses: no adapters or devices exist,
uninitialized memory reads as zero, and the SDP library reduces any value
below 2^16 to a 16-bit uuid. -/
def baseEnv : Env where
  junk := fun _ => zero_info
  findAdapter := fun _ => false
  findAdapterById := fun _ => false
  getDevice := fun _ _ _ => false
  findDevice := fun _ _ => false
  registerAdapter := fun _ => false
  adapterName := fun _ => none
  adapterMajor := fun _ => 0
  adapterMinor := fun _ => 0
  getPin := fun _ _ => 0
  getPinDisplay := fun _ _ => false
  deviceIsBonding := fun _ => false
  deviceIsTemporary := fun _ => false
  deviceIsConnected := fun _ => false
  notifyPincodeOk := true
  requestPincodeOk := true
  requestPasskeyOk := true
  notifyPasskeyOk := true
  confirmPasskeyOk := true
  eirClass := fun _ => 0
  eirName := fun _ => none
  sdp16to128 := fun u => { ty := SdpUuidType.uuid128, value := u.value }
  sdp32to128 := fun u => { ty := SdpUuidType.uuid128, value := u.value }
  sdp128toUuid := fun u =>
    if u.value < 65536 then some { ty := SdpUuidType.uuid16, value := u.value }
    else some { ty := SdpUuidType.uuid32, value := u.value }

/-- An environment whose SDP library can reduce nothing. -/
def envNoReduce : Env := { baseEnv with sdp128toUuid := fun _ => none }

/-- A 16-bit serial-port uuid used in scenarios. -/
def uuidA : uuid_t := { ty := SdpUuidType.uuid16, value := 0x1101 }

/-- A second 16-bit uuid used in scenarios. -/
def uuidB : uuid_t := { ty := SdpUuidType.uuid16, value := 0x110A }

/-- A valid controller record with an identifier operation in flight. -/
def infoBusy : controller_info :=
  { zero_info with valid := true, pending_uuid := true }

/-- Claim C9: an identifier that cannot be reduced to 16-bit form (and is
not the all-zero wildcard 128-bit uuid) makes both mgmt_add_uuid and
mgmt_remove_uuid return success, transmit nothing, and leave the
controller's pending state untouched. -/
theorem C9_non16bit_uuid_ignored :
    ∀ (env : Env) (i : Nat) (info : controller_info) (u : uuid_t) (h : Nat),
      (u.ty = SdpUuidType.uuid128 → u.value ≠ 0) →
      (∀ t, env.sdp128toUuid (uuid_to_uuid128 env u) = some t →
        t.ty ≠ SdpUuidType.uuid16) →
      mgmt_add_uuid env i info u h = (0, info, []) ∧
      mgmt_remove_uuid env i info u = (0, info, []) := by
  intro env i info u h h0 hred
  have h16 : is_16bit_uuid env u = false := by
    unfold is_16bit_uuid
    rw [if_neg (by rintro ⟨ha, hb⟩; exact h0 ha hb)]
    cases hc : env.sdp128toUuid (uuid_to_uuid128 env u) with
    | none => rfl
    | some t => simp [hred t hc]
  constructor <;> simp [mgmt_add_uuid, mgmt_remove_uuid, h16]

/-- Witness for C9 at a concrete non-reducible 128-bit uuid. -/
theorem C9_non16bit_uuid_ignored_witness :
    mgmt_add_uuid envNoReduce 0 infoBusy
        { ty := SdpUuidType.uuid128, value := 5 } 3 = (0, infoBusy, []) ∧
    mgmt_remove_uuid envNoReduce 0 infoBusy
        { ty := SdpUuidType.uuid128, value := 5 } = (0, infoBusy, []) :=
  C9_non16bit_uuid_ignored envNoReduce 0 infoBusy
    { ty := SdpUuidType.uuid128, value := 5 } 3
    (fun _ => by decide) (fun t ht => by simp [envNoReduce] at ht)

/-- Claim C10: only a power-on request is deferred behind an in-flight
identifier operation; a power-off request is always transmitted
immediately and clears any deferred power-on first. -/
theorem C10_power_off_never_deferred :
    ∀ (i : Nat) (info : controller_info),
      mgmt_set_powered i info false =
        (0, { info with pending_powered := false },
         [Act.sendSetMode i MGMT_OP_SET_POWERED 0]) ∧
      (info.pending_uuid = true →
        mgmt_set_powered i info true =
          (0, { info with pending_powered := true }, [])) ∧
      (info.pending_uuid = false →
        mgmt_set_powered i info true =
          (0, info, [Act.sendSetMode i MGMT_OP_SET_POWERED 1])) := by
  intro i info
  refine ⟨by simp [mgmt_set_powered], ?_, ?_⟩ <;>
    intro h <;> simp [mgmt_set_powered, h]

/-- Witness for C10: a power-off while an identifier operation is in
flight is transmitted at once, a power-on in the same state is deferred. -/
theorem C10_power_off_never_deferred_witness :
    mgmt_set_powered 0 infoBusy false =
      (0, { infoBusy with pending_powered := false },
       [Act.sendSetMode 0 MGMT_OP_SET_POWERED 0]) ∧
    mgmt_set_powered 0 infoBusy true =
      (0, { infoBusy with pending_powered := true }, []) :=
  ⟨(C10_power_off_never_deferred 0 infoBusy).1,
   (C10_power_off_never_deferred 0 infoBusy).2.1 rfl⟩

/-- A junk oracle standing for realloc memory that happens to hold a stale
nonzero record at every slot. -/
def junkEnv : Env :=
  { baseEnv with junk := fun _ => { zero_info with valid := true, bdaddr := 5 } }

/-- Claim C7 (code evaluation): registering index 2 into the empty registry
leaves slots 0 and 1 holding whatever g_realloc's fresh memory contained —
they are not zero-initialized, so with stale nonzero memory slot 0 reads
as a valid record instead of failing the registry lookup.  Slot 2 itself
is a fresh zeroed record marked valid. -/
theorem C7_add_controller_leaves_junk :
    add_controller junkEnv emptyRegistry 2 =
      { maxIndex := 2,
        slots := [{ zero_info with valid := true, bdaddr := 5 },
                  { zero_info with valid := true, bdaddr := 5 },
                  { zero_info with valid := true }] } ∧
    (memSlot junkEnv (add_controller junkEnv emptyRegistry 2) 0).valid = true ∧
    (memSlot junkEnv (add_controller junkEnv emptyRegistry 2) 0).bdaddr ≠ 0 ∧
    (memSlot junkEnv (add_controller junkEnv emptyRegistry 2) 2) =
      { zero_info with valid := true } := by
  refine ⟨?_, ?_, ?_, ?_⟩ <;> decide

/-- While an identifier operation is in flight, an add/remove request keeps
the in-flight flag set and transmits nothing. -/
theorem uuidStep_req_busy (env : Env) (i : Nat) (info : controller_info)
    (add : Bool) (u : uuid_t) (h : Nat) (hp : info.pending_uuid = true) :
    (uuidStep env i info (UuidEv.req add u h)).1.pending_uuid = true ∧
    (uuidStep env i info (UuidEv.req add u h)).2 = [] := by
  cases add <;>
    · simp only [uuidStep, mgmt_add_uuid, mgmt_remove_uuid]
      split
      · simpa using hp
      · simp [hp]

/-- Over any run containing no completion event, a controller that starts
with an identifier operation in flight transmits no identifier command and
stays in flight. -/
theorem runUuid_busy_no_send (env : Env) (i : Nat) :
    ∀ (evs : List UuidEv) (info : controller_info),
      info.pending_uuid = true → (∀ e ∈ evs, e ≠ UuidEv.complete) →
      uuidSends (runUuid env i info evs).2 = [] ∧
      (runUuid env i info evs).1.pending_uuid = true := by
  intro evs
  induction evs with
  | nil => intro info hp _; exact ⟨rfl, hp⟩
  | cons e es ih =>
    intro info hp hnc
    have he : e ≠ UuidEv.complete := hnc e (List.mem_cons_self e es)
    obtain ⟨add, u, h, rfl⟩ : ∃ a u h, e = UuidEv.req a u h := by
      cases e with
      | req a u h => exact ⟨a, u, h, rfl⟩
      | complete => exact absurd rfl he
    have hs := uuidStep_req_busy env i info add u h hp
    have ihres := ih (uuidStep env i info (UuidEv.req add u h)).1 hs.1
      (fun e' he' => hnc e' (List.mem_cons_of_mem _ he'))
    refine ⟨?_, ?_⟩
    · simp only [runUuid, uuidSends, List.filter_append]
      rw [show (uuidStep env i info (UuidEv.req add u h)).2.filter isUuidSend
            = [] from by rw [hs.2]; rfl]
      simpa [uuidSends] using ihres.1
    · simpa [runUuid] using ihres.2

/-- Any single event of the identifier machine transmits at most one
identifier command. -/
theorem uuidStep_sends_le_one (env : Env) (i : Nat) (info : controller_info)
    (e : UuidEv) : (uuidSends (uuidStep env i info e).2).length ≤ 1 := by
  cases e with
  | req add u h =>
    cases add <;>
      · simp only [uuidStep, mgmt_add_uuid, mgmt_remove_uuid]
        split_ifs <;> simp [uuidSends, isUuidSend]
  | complete =>
    simp only [uuidStep, handle_pending_uuids]
    cases hq : ({ info with pending_uuid := false } : controller_info).pending_uuids with
    | nil =>
      simp only [hq]
      split_ifs <;>
        simp [mgmt_set_dev_class, mgmt_set_powered, uuidSends, isUuidSend,
              List.filter_append]
    | cons p rest =>
      simp only [hq]
      split_ifs <;>
        · simp only [mgmt_add_uuid, mgmt_remove_uuid]
          split_ifs <;> simp [uuidSends, isUuidSend]

/-- After the in-flight operation completes with a non-empty queue, exactly
the front entry is popped and transmitted, and the machine is in flight
again. -/
theorem handle_pending_uuids_pop (env : Env) (i : Nat)
    (info : controller_info) (p : PendingUuid) (rest : List PendingUuid)
    (hq : info.pending_uuids = p :: rest)
    (h16 : is_16bit_uuid env p.uuid = true) :
    handle_pending_uuids env i info =
      ({ info with pending_uuid := true, pending_uuids := rest },
       [if p.add then Act.sendAddUuid i (uuid_to_uuid128 env p.uuid) p.svc_hint
        else Act.sendRemoveUuid i (uuid_to_uuid128 env p.uuid)]) := by
  simp only [handle_pending_uuids]
  have hq' : ({ info with pending_uuid := false } : controller_info).pending_uuids
      = p :: rest := hq
  rw [hq']
  cases hpa : p.add <;>
    simp [mgmt_add_uuid, mgmt_remove_uuid, h16, hq, hpa, removeFirst]

/-- Claim C1: per controller at most one identifier command is outstanding:
a request issued while one is in flight is appended to the queue (success
returned, nothing transmitted); completion pops and transmits exactly the
front entry (FIFO); without a completion no further identifier command is
ever transmitted; one event transmits at most one identifier command; and
the add(A), add(B), remove(A) scenario transmits exactly add A, then add B
after the first completion, then remove A after the second. -/
theorem C1_single_flight_identifier_queue :
    (∀ (env : Env) (i : Nat) (info : controller_info) (u : uuid_t) (h : Nat),
       is_16bit_uuid env u = true → info.pending_uuid = true →
       mgmt_add_uuid env i info u h =
         (0, { info with pending_uuids := info.pending_uuids ++
                 [{ add := true, uuid := u, svc_hint := h }] }, []) ∧
       mgmt_remove_uuid env i info u =
         (0, { info with pending_uuids := info.pending_uuids ++
                 [{ add := false, uuid := u, svc_hint := 0 }] }, [])) ∧
    (∀ (env : Env) (i : Nat) (info : controller_info) (p : PendingUuid)
        (rest : List PendingUuid),
       info.pending_uuids = p :: rest → is_16bit_uuid env p.uuid = true →
       handle_pending_uuids env i info =
         ({ info with pending_uuid := true, pending_uuids := rest },
          [if p.add then
             Act.sendAddUuid i (uuid_to_uuid128 env p.uuid) p.svc_hint
           else Act.sendRemoveUuid i (uuid_to_uuid128 env p.uuid)])) ∧
    (∀ (env : Env) (i : Nat) (info : controller_info) (evs : List UuidEv),
       info.pending_uuid = true → (∀ e ∈ evs, e ≠ UuidEv.complete) →
       uuidSends (runUuid env i info evs).2 = []) ∧
    (∀ (env : Env) (i : Nat) (info : controller_info) (e : UuidEv),
       (uuidSends (uuidStep env i info e).2).length ≤ 1) ∧
    (runUuid baseEnv 0 { zero_info with valid := true }
        [UuidEv.req true uuidA 1, UuidEv.req true uuidB 2,
         UuidEv.req false uuidA 0,
         UuidEv.complete, UuidEv.complete, UuidEv.complete] =
      ({ zero_info with valid := true },
       [Act.sendAddUuid 0 { ty := SdpUuidType.uuid128, value := 0x1101 } 1,
        Act.sendAddUuid 0 { ty := SdpUuidType.uuid128, value := 0x110A } 2,
        Act.sendRemoveUuid 0 { ty := SdpUuidType.uuid128, value := 0x1101 }])) := by
  refine ⟨?_, ?_, ?_, ?_, ?_⟩
  · intro env i info u h h16 hp
    constructor <;> simp [mgmt_add_uuid, mgmt_remove_uuid, h16, hp]
  · intro env i info p rest hq h16
    exact handle_pending_uuids_pop env i info p rest hq h16
  · intro env i info evs hp hnc
    exact (runUuid_busy_no_send env i evs info hp hnc).1
  · intro env i info e
    exact uuidStep_sends_le_one env i info e
  · decide

/-- Witness for C1: a concrete request issued while in flight is queued and
transmits nothing. -/
theorem C1_single_flight_identifier_queue_witness :
    mgmt_add_uuid baseEnv 0 infoBusy uuidA 7 =
      (0, { infoBusy with pending_uuids :=
              [{ add := true, uuid := uuidA, svc_hint := 7 }] }, []) :=
  (C1_single_flight_identifier_queue.1 baseEnv 0 infoBusy uuidA 7
    (by decide) rfl).1

/-- List.set followed by getD at the same position. -/
theorem getD_set_self {α : Type} (l : List α) (i : Nat) (a d : α) :
    (l.set i a).getD i d = if i < l.length then a else d := by
  induction l generalizing i with
  | nil => simp
  | cons x xs ih =>
    cases i with
    | zero => simp
    | succ n => simpa using ih n

/-- mgmt_update_cod never modifies the registry. -/
theorem mgmt_update_cod_reg (env : Env) (r : Registry) (i : Nat)
    (buf : List Nat) : (mgmt_update_cod env r i buf).1 = r := by
  by_cases h : buf.length < 3
  · simp [mgmt_update_cod, h]
  · by_cases h2 : env.findAdapter (memSlot env r i).bdaddr <;>
      simp [mgmt_update_cod, h, h2]

/-- mgmt_update_cod never transmits an identifier command. -/
theorem mgmt_update_cod_sends (env : Env) (r : Registry) (i : Nat)
    (buf : List Nat) : uuidSends (mgmt_update_cod env r i buf).2 = [] := by
  by_cases h : buf.length < 3
  · simp [mgmt_update_cod, h, uuidSends]
  · by_cases h2 : env.findAdapter (memSlot env r i).bdaddr <;>
      simp [mgmt_update_cod, h, h2, uuidSends, isUuidSend]

/-- Claim C8: a BUSY command-status for ADD_UUID only sets the controller's
class-change-busy flag; a later class-of-device-changed event with that
flag set clears it, clears the in-flight flag, and sends the next queued
identifier operation if any. -/
theorem C8_busy_status_retried_via_cod_change :
    (∀ (env : Env) (r : Registry) (i : Nat) (buf : List Nat),
       3 ≤ buf.length → bt_get_le16 buf = MGMT_OP_ADD_UUID →
       buf.getD 2 0 = MGMT_STATUS_BUSY →
       mgmt_cmd_status env r i buf =
         (setSlot r i { memSlot env r i with pending_cod_change := true }, [])) ∧
    (∀ (env : Env) (r : Registry) (i : Nat) (buf : List Nat) (p : PendingUuid)
        (rest : List PendingUuid),
       (i : Int) ≤ r.maxIndex → i < r.slots.length →
       (memSlot env r i).pending_cod_change = true →
       (memSlot env r i).pending_uuids = p :: rest →
       is_16bit_uuid env p.uuid = true →
       memSlot env (mgmt_cod_changed env r i buf).1 i =
         { memSlot env r i with
             pending_cod_change := false
             pending_uuid := true
             pending_uuids := rest } ∧
       uuidSends (mgmt_cod_changed env r i buf).2 =
         [if p.add then
            Act.sendAddUuid i (uuid_to_uuid128 env p.uuid) p.svc_hint
          else Act.sendRemoveUuid i (uuid_to_uuid128 env p.uuid)]) ∧
    (∀ (env : Env) (r : Registry) (i : Nat) (buf : List Nat),
       (i : Int) ≤ r.maxIndex → i < r.slots.length →
       (memSlot env r i).pending_cod_change = true →
       (memSlot env r i).pending_uuids = [] →
       (memSlot env r i).pending_class = false →
       (memSlot env r i).pending_powered = false →
       memSlot env (mgmt_cod_changed env r i buf).1 i =
         { memSlot env r i with
             pending_cod_change := false
             pending_uuid := false } ∧
       uuidSends (mgmt_cod_changed env r i buf).2 = []) := by
  refine ⟨?_, ?_, ?_⟩
  · intro env r i buf hlen hop hst
    have hst2 : buf[2]?.getD 0 = MGMT_STATUS_BUSY := by
      simpa [List.getD] using hst
    simp [mgmt_cmd_status, mgmt_add_uuid_busy, hop, hst2, MGMT_OP_ADD_UUID,
          MGMT_OP_READ_LOCAL_OOB_DATA, MGMT_STATUS_BUSY, Nat.not_lt.mpr hlen]
  · intro env r i buf p rest hidx hlen hflag hq h16
    have hpop := handle_pending_uuids_pop env i
      { memSlot env r i with pending_cod_change := false } p rest hq h16
    have hnotgt : ¬((i : Int) > r.maxIndex) := not_lt.mpr hidx
    have hcc : mgmt_cod_changed env r i buf =
        ((mgmt_update_cod env
            (setSlot r i
              { memSlot env r i with
                  pending_cod_change := false
                  pending_uuid := true
                  pending_uuids := rest }) i buf).1,
         [if p.add then
            Act.sendAddUuid i (uuid_to_uuid128 env p.uuid) p.svc_hint
          else Act.sendRemoveUuid i (uuid_to_uuid128 env p.uuid)] ++
           (mgmt_update_cod env
             (setSlot r i
               { memSlot env r i with
                   pending_cod_change := false
                   pending_uuid := true
                   pending_uuids := rest }) i buf).2) := by
      simp only [mgmt_cod_changed, hnotgt, if_false, hflag, if_true, hpop,
        ite_false, ite_true]
    constructor
    · rw [hcc]
      simp only [mgmt_update_cod_reg]
      simp [memSlot, setSlot, getD_set_self, hlen]
    · rw [hcc]
      simp only [uuidSends, List.filter_append]
      have hz : List.filter isUuidSend
          (mgmt_update_cod env
            (setSlot r i
              { memSlot env r i with
                  pending_cod_change := false
                  pending_uuid := true
                  pending_uuids := rest }) i buf).2 = [] :=
        mgmt_update_cod_sends env _ i buf
      rw [hz]
      cases hpa : p.add <;> simp [isUuidSend]
  · intro env r i buf hidx hlen hflag hq hclass hpow
    have hnotgt : ¬((i : Int) > r.maxIndex) := not_lt.mpr hidx
    have hh : handle_pending_uuids env i
        { memSlot env r i with pending_cod_change := false } =
        ({ memSlot env r i with
             pending_cod_change := false
             pending_uuid := false }, []) := by
      simp [handle_pending_uuids, hq, hclass, hpow]
    have hcc : mgmt_cod_changed env r i buf =
        ((mgmt_update_cod env
            (setSlot r i
              { memSlot env r i with
                  pending_cod_change := false
                  pending_uuid := false }) i buf).1,
         [] ++
           (mgmt_update_cod env
             (setSlot r i
               { memSlot env r i with
                   pending_cod_change := false
                   pending_uuid := false }) i buf).2) := by
      simp only [mgmt_cod_changed, hnotgt, if_false, hflag, if_true, hh,
        ite_false, ite_true]
    constructor
    · rw [hcc]
      simp only [mgmt_update_cod_reg]
      simp [memSlot, setSlot, getD_set_self, hlen]
    · rw [hcc]
      simp only [uuidSends, List.filter_append]
      have hz : List.filter isUuidSend
          (mgmt_update_cod env
            (setSlot r i
              { memSlot env r i with
                  pending_cod_change := false
                  pending_uuid := false }) i buf).2 = [] :=
        mgmt_update_cod_sends env _ i buf
      rw [hz]
      rfl

/-- A controller with the class-change-busy flag set and one queued add. -/
def infoBusyCod : controller_info :=
  { infoBusy with
      pending_cod_change := true
      pending_uuids := [{ add := true, uuid := uuidA, svc_hint := 4 }] }

/-- One-slot registry holding infoBusy. -/
def rBusy : Registry := { maxIndex := 0, slots := [infoBusy] }

/-- One-slot registry holding infoBusyCod. -/
def rBusyCod : Registry := { maxIndex := 0, slots := [infoBusyCod] }

/-- Witness for C8 at a concrete busy status and retry trigger. -/
theorem C8_busy_status_retried_via_cod_change_witness :
    mgmt_cmd_status baseEnv rBusy 0 [0x10, 0x00, 0x0A] =
      (setSlot rBusy 0 { infoBusy with pending_cod_change := true }, []) ∧
    memSlot baseEnv (mgmt_cod_changed baseEnv rBusyCod 0 [0, 0, 0]).1 0 =
      { infoBusyCod with
          pending_cod_change := false
          pending_uuid := true
          pending_uuids := [] } ∧
    uuidSends (mgmt_cod_changed baseEnv rBusyCod 0 [0, 0, 0]).2 =
      [Act.sendAddUuid 0 { ty := SdpUuidType.uuid128, value := 0x1101 } 4] := by
  refine ⟨?_, ?_, ?_⟩
  · exact C8_busy_status_retried_via_cod_change.1 baseEnv rBusy 0
      [0x10, 0x00, 0x0A] (by decide) (by decide) (by decide)
  · exact (C8_busy_status_retried_via_cod_change.2.1 baseEnv rBusyCod 0
      [0, 0, 0] { add := true, uuid := uuidA, svc_hint := 4 } []
      (by decide) (by decide) (by decide) (by decide) (by decide)).1
  · exact (C8_busy_status_retried_via_cod_change.2.1 baseEnv rBusyCod 0
      [0, 0, 0] { add := true, uuid := uuidA, svc_hint := 4 } []
      (by decide) (by decide) (by decide) (by decide) (by decide)).2

/-- An environment in which an adapter exists for every address. -/
def envAdapter : Env := { baseEnv with findAdapter := fun _ => true }

/-- A powered controller with every kind of pending operation queued. -/
def infoPend : controller_info :=
  { zero_info with
      valid := true
      bdaddr := 3
      current_settings := 1
      pending_uuid := true
      pending_uuids := [{ add := true, uuid := uuidA, svc_hint := 1 }]
      pending_class := true
      major := 2
      minor := 4
      pending_powered := true
      pending_cod_change := true }

/-- One-slot registry holding infoPend. -/
def rPend : Registry := { maxIndex := 0, slots := [infoPend] }

/-- Counterexample to claim C2: a settings-changed event that turns the
powered bit off discards the queued identifier operations and the queued
class change, but the deferred power-on flag (pending_powered) survives —
it is not cleared as the claim states. -/
theorem C2_counterexample_deferred_power_on_survives :
    (memSlot envAdapter
        (mgmt_new_settings envAdapter rPend 0 [0, 0, 0, 0]).1 0).pending_powered
      = true ∧
    (memSlot envAdapter
        (mgmt_new_settings envAdapter rPend 0 [0, 0, 0, 0]).1 0).pending_uuids
      = [] ∧
    (memSlot envAdapter
        (mgmt_new_settings envAdapter rPend 0 [0, 0, 0, 0]).1 0).pending_uuid
      = false ∧
    (memSlot envAdapter
        (mgmt_new_settings envAdapter rPend 0 [0, 0, 0, 0]).1 0).pending_class
      = false := by
  refine ⟨?_, ?_, ?_, ?_⟩ <;> decide

/-- Claim C2 (amended): a powered-on-to-off settings-changed event stops
the adapter and discards the queued identifier operations, the in-flight
flag, the queued class change and the class-change-busy flag, and stores
the new bitmask; the deferred power-on flag is left unchanged. -/
theorem C2_power_off_clears_queues :
    ∀ (env : Env) (r : Registry) (i : Nat) (buf : List Nat),
      4 ≤ buf.length → (i : Int) ≤ r.maxIndex → i < r.slots.length →
      env.findAdapter (memSlot env r i).bdaddr = true →
      mgmt_powered (memSlot env r i).current_settings = true →
      mgmt_powered (bt_get_le32 buf) = false →
      mgmt_new_settings env r i buf =
        (setSlot r i
          { memSlot env r i with
              pending_uuids := []
              pending_uuid := false
              pending_class := false
              pending_cod_change := false
              current_settings := bt_get_le32 buf },
         [Act.adapterStop (memSlot env r i).bdaddr]) ∧
      (memSlot env (mgmt_new_settings env r i buf).1 i).pending_powered =
        (memSlot env r i).pending_powered := by
  intro env r i buf hlen hidx hsl hfa hold hnew
  have hnotlen : ¬(buf.length < 4) := Nat.not_lt.mpr hlen
  have hnotgt : ¬((i : Int) > r.maxIndex) := not_lt.mpr hidx
  have heq : mgmt_new_settings env r i buf =
      (setSlot r i
        { memSlot env r i with
            pending_uuids := []
            pending_uuid := false
            pending_class := false
            pending_cod_change := false
            current_settings := bt_get_le32 buf },
       [Act.adapterStop (memSlot env r i).bdaddr]) := by
    simp [mgmt_new_settings, mgmt_update_powered, hnotlen, hnotgt, hfa,
          hold, hnew]
  refine ⟨heq, ?_⟩
  rw [heq]
  simp [memSlot, setSlot, getD_set_self, hsl]

/-- Witness for C2 (amended) at the concrete all-pending controller. -/
theorem C2_power_off_clears_queues_witness :
    mgmt_new_settings envAdapter rPend 0 [0, 0, 0, 0] =
      (setSlot rPend 0
        { infoPend with
            pending_uuids := []
            pending_uuid := false
            pending_class := false
            pending_cod_change := false
            current_settings := 0 },
       [Act.adapterStop 3]) :=
  (C2_power_off_clears_queues envAdapter rPend 0 [0, 0, 0, 0]
    (by decide) (by decide) (by decide) (by decide) (by decide) (by decide)).1

/-- List.getD beyond the length yields the default. -/
theorem getD_oob {α : Type} (l : List α) (i : Nat) (d : α)
    (h : l.length ≤ i) : l.getD i d = d := by
  induction l generalizing i with
  | nil => simp
  | cons x xs ih =>
    cases i with
    | zero => simp at h
    | succ n => simpa using ih n (by simpa using h)

/-- Reading back an in-bounds slot just written. -/
theorem memSlot_setSlot_self (env : Env) (r : Registry) (i : Nat)
    (v : controller_info) (h : i < r.slots.length) :
    memSlot env (setSlot r i v) i = v := by
  show (r.slots.set i v).getD i (env.junk i) = v
  rw [getD_set_self, if_pos h]

/-- Writing outside the array is a no-op for subsequent reads. -/
theorem memSlot_setSlot_oob (env : Env) (r : Registry) (i : Nat)
    (v : controller_info) (h : ¬ i < r.slots.length) :
    memSlot env (setSlot r i v) i = memSlot env r i := by
  show (r.slots.set i v).getD i (env.junk i) = r.slots.getD i (env.junk i)
  rw [getD_set_self, if_neg h, getD_oob _ _ _ (Nat.le_of_not_lt h)]

/-- mgmt_remove_uuid never alters the stored settings bitmask. -/
theorem mgmt_remove_uuid_keeps_settings (env : Env) (i : Nat)
    (info : controller_info) (u : uuid_t) :
    ((mgmt_remove_uuid env i info u).2.1).current_settings =
      info.current_settings := by
  simp only [mgmt_remove_uuid]
  split_ifs <;> rfl

/-- mgmt_set_dev_class never alters the stored settings bitmask. -/
theorem mgmt_set_dev_class_keeps_settings (i : Nat) (info : controller_info)
    (major minor : Nat) :
    ((mgmt_set_dev_class i info major minor).2.1).current_settings =
      info.current_settings := by
  simp only [mgmt_set_dev_class]
  split_ifs <;> rfl

/-- Claim C6: current_settings is only ever replaced as a whole unit with a
bitmask decoded from the transport (the two writers, mgmt_new_settings and
read_info_complete, either leave it unchanged on a dropped message or store
the decoded word), and a settings-changed event that passes its validation
stores the new bitmask unconditionally — regardless of the powered
transition and of which notifications were emitted. -/
theorem C6_settings_replaced_as_unit :
    (∀ (env : Env) (r : Registry) (i : Nat) (buf : List Nat),
       4 ≤ buf.length → (i : Int) ≤ r.maxIndex → i < r.slots.length →
       env.findAdapter (memSlot env r i).bdaddr = true →
       (memSlot env (mgmt_new_settings env r i buf).1 i).current_settings =
         bt_get_le32 buf) ∧
    (∀ (env : Env) (r : Registry) (i : Nat) (buf : List Nat),
       (memSlot env (mgmt_new_settings env r i buf).1 i).current_settings =
         (memSlot env r i).current_settings ∨
       (memSlot env (mgmt_new_settings env r i buf).1 i).current_settings =
         bt_get_le32 buf) ∧
    (∀ (env : Env) (r : Registry) (i : Nat) (buf : List Nat),
       (memSlot env (read_info_complete env r i buf).1 i).current_settings =
         (memSlot env r i).current_settings ∨
       (memSlot env (read_info_complete env r i buf).1 i).current_settings =
         bt_get_le32 (buf.drop 13)) := by
  refine ⟨?_, ?_, ?_⟩
  · intro env r i buf hlen hidx hsl hfa
    have hnotlen : ¬(buf.length < 4) := Nat.not_lt.mpr hlen
    have hnotgt : ¬((i : Int) > r.maxIndex) := not_lt.mpr hidx
    by_cases hq : mgmt_powered (bt_get_le32 buf) =
        mgmt_powered (memSlot env r i).current_settings
    · simp [mgmt_new_settings, hnotlen, hnotgt, hfa, hq,
            memSlot_setSlot_self, hsl]
    · by_cases hpw : mgmt_powered (bt_get_le32 buf) = true <;>
        simp [mgmt_new_settings, mgmt_update_powered, hnotlen, hnotgt, hfa,
              hq, hpw, memSlot_setSlot_self, hsl]
  · intro env r i buf
    by_cases h1 : buf.length < 4
    · left; simp [mgmt_new_settings, h1]
    by_cases h2 : (i : Int) > r.maxIndex
    · left; simp [mgmt_new_settings, h1, h2]
    by_cases h3 : env.findAdapter (memSlot env r i).bdaddr
    · by_cases hsl : i < r.slots.length
      · right
        by_cases hq : mgmt_powered (bt_get_le32 buf) =
            mgmt_powered (memSlot env r i).current_settings
        · simp [mgmt_new_settings, h1, h2, h3, hq, memSlot_setSlot_self, hsl]
        · by_cases hpw : mgmt_powered (bt_get_le32 buf) = true <;>
            simp [mgmt_new_settings, mgmt_update_powered, h1, h2, h3, hq,
                  hpw, memSlot_setSlot_self, hsl]
      · left
        by_cases hq : mgmt_powered (bt_get_le32 buf) =
            mgmt_powered (memSlot env r i).current_settings
        · simp [mgmt_new_settings, h1, h2, h3, hq, memSlot_setSlot_oob, hsl]
        · by_cases hpw : mgmt_powered (bt_get_le32 buf) = true <;>
            simp [mgmt_new_settings, mgmt_update_powered, h1, h2, h3, hq,
                  hpw, memSlot_setSlot_oob, hsl]
    · left; simp [mgmt_new_settings, h1, h2, h3]
  · intro env r i buf
    by_cases h1 : buf.length < 280
    · left; simp [read_info_complete, h1]
    by_cases h2 : (i : Int) > r.maxIndex
    · left; simp [read_info_complete, h1, h2]
    by_cases hsl : i < r.slots.length
    · right
      by_cases h4 : env.registerAdapter i <;>
        simp [read_info_complete, h1, h2, h4, clear_uuids,
              memSlot_setSlot_self, hsl, mgmt_remove_uuid_keeps_settings,
              mgmt_set_dev_class_keeps_settings]
    · left
      by_cases h4 : env.registerAdapter i <;>
        simp [read_info_complete, h1, h2, h4, clear_uuids,
              memSlot_setSlot_oob, hsl]

/-- Witness for C6: a concrete processed settings event stores the decoded
bitmask. -/
theorem C6_settings_replaced_as_unit_witness :
    (memSlot envAdapter
        (mgmt_new_settings envAdapter rPend 0 [3, 1, 0, 0]).1 0).current_settings
      = 259 :=
  C6_settings_replaced_as_unit.1 envAdapter rPend 0 [3, 1, 0, 0]
    (by decide) (by decide) (by decide) (by decide)

/-- An environment with an adapter and a device for every address. -/
def envAD : Env :=
  { baseEnv with
      findAdapter := fun _ => true
      getDevice := fun _ _ _ => true
      findDevice := fun _ _ => true }

/-- A registry with one valid controller at index 0. -/
def rOne : Registry :=
  { maxIndex := 0, slots := [{ zero_info with valid := true, bdaddr := 1 }] }

/-- Counterexample to claim C3: a device-connected event whose payload has
one more byte than the 13-byte prefix plus declared eir_len = 0 is
accepted and produces a collaborator call, so the connected decoder is
"at least", not exact. -/
theorem C3_counterexample_connected_accepts_excess :
    mgmt_device_connected envAD rOne 0
        [9, 0, 0, 0, 0, 0, 0, 0, 0, 0, 0, 0, 0, 99] =
      (rOne, [Act.addConnection 9]) := by
  decide

/-- Claim C3 (amended): the device-found decoder requires the payload
length to equal the fixed prefix plus the declared eir length exactly,
while the device-connected decoder only requires at least that many bytes
(shorter payloads are dropped, excess bytes are accepted). -/
theorem C3_trailing_length_validation :
    (∀ (env : Env) (r : Registry) (i : Nat) (buf : List Nat),
       buf.length ≠ 14 + bt_get_le16 (buf.drop 12) →
       mgmt_device_found env r i buf = (r, [])) ∧
    (∀ (env : Env) (r : Registry) (i : Nat) (buf : List Nat),
       buf.length < 13 + bt_get_le16 (buf.drop 11) →
       mgmt_device_connected env r i buf = (r, [])) := by
  constructor
  · intro env r i buf hne
    by_cases h1 : buf.length < 14
    · simp [mgmt_device_found, h1]
    · simp [mgmt_device_found, h1, hne]
  · intro env r i buf hlt
    by_cases h1 : buf.length < 13
    · simp [mgmt_device_connected, h1]
    · simp [mgmt_device_connected, h1, hlt]

/-- Witness for C3 (amended): a device-found event declaring eir_len = 5
with only 3 trailing bytes is dropped with no collaborator call, and so is
a device-connected event in the same shape. -/
theorem C3_trailing_length_validation_witness :
    mgmt_device_found envAD rOne 0
        [0, 0, 0, 0, 0, 0, 0, 0, 0, 0, 0, 0, 5, 0, 1, 2, 3] = (rOne, []) ∧
    mgmt_device_connected envAD rOne 0
        [0, 0, 0, 0, 0, 0, 0, 0, 0, 0, 0, 5, 0, 1, 2, 3] = (rOne, []) :=
  ⟨C3_trailing_length_validation.1 envAD rOne 0 _ (by decide),
   C3_trailing_length_validation.2 envAD rOne 0 _ (by decide)⟩

/-- An environment where an adapter exists for every address and stray
memory beyond the controller array reads as a record with address 9. -/
def envJunk9 : Env :=
  { baseEnv with
      findAdapter := fun _ => true
      junk := fun _ => { zero_info with bdaddr := 9 } }

/-- A registry whose slots 0 and 1 were never registered (valid = false)
while slot 2 is a live controller. -/
def rInvalid : Registry :=
  { maxIndex := 2,
    slots := [zero_info, zero_info, { zero_info with valid := true, bdaddr := 7 }] }

/-- Counterexample to claim C4: (a) the set-device-class completion path
reaches the class-update routine with no index check at all — with an
empty registry (nothing ever registered) it reads stray memory and makes a
collaborator call; (b) in-range handlers never consult the valid flag — a
settings event for never-registered slot 0 still drives collaborator
notifications. -/
theorem C4_counterexample_lookup_not_enforced :
    mgmt_cmd_complete envJunk9 initState 7 [14, 0, 0, 0, 0, 0] =
      some (initState, [Act.classChanged [14, 0, 0]]) ∧
    (memSlot envJunk9 rInvalid 0).valid = false ∧
    (mgmt_new_settings envJunk9 rInvalid 0 [0, 0, 0, 0]).2 =
      [Act.updateConnectable false, Act.updateDiscoverable false,
       Act.updatePairable false] := by
  refine ⟨?_, ?_, ?_⟩ <;> decide

/-- Claim C4 (amended): dispatcher handlers validate only that the index
does not exceed max_index — an out-of-range index is dropped with no state
change and no collaborator call — but the slot's valid flag is never
consulted, and the set-device-class completion path performs no index
check at all. -/
theorem C4_out_of_range_index_dropped :
    ∀ (env : Env) (r : Registry) (i : Nat) (buf : List Nat),
      (i : Int) > r.maxIndex →
      mgmt_new_settings env r i buf = (r, []) ∧
      mgmt_cod_changed env r i buf = (r, []) ∧
      mgmt_device_found env r i buf = (r, []) ∧
      mgmt_device_connected env r i buf = (r, []) ∧
      mgmt_discovering env r i buf = (r, []) ∧
      mgmt_new_ltk env r i buf = (r, []) ∧
      mgmt_add_uuid_complete env r i buf = (r, []) ∧
      mgmt_remove_uuid_complete env r i buf = (r, []) ∧
      read_info_complete env r i buf = (r, []) ∧
      mgmt_new_link_key env r i buf = (r, []) := by
  intro env r i buf h
  refine ⟨?_, ?_, ?_, ?_, ?_, ?_, ?_, ?_, ?_, ?_⟩
  · simp [mgmt_new_settings, h]
  · simp [mgmt_cod_changed, h]
  · simp [mgmt_device_found, h]
  · simp [mgmt_device_connected, h]
  · simp [mgmt_discovering, h]
  · simp [mgmt_new_ltk, h]
  · simp [mgmt_add_uuid_complete, h]
  · simp [mgmt_remove_uuid_complete, h]
  · simp [read_info_complete, h]
  · simp [mgmt_new_link_key, h]

/-- Witness for C4 (amended): index 5 against the empty registry is inert
for every handler. -/
theorem C4_out_of_range_index_dropped_witness :
    mgmt_new_settings baseEnv emptyRegistry 5 [0, 0, 0, 0] =
      (emptyRegistry, []) ∧
    mgmt_cod_changed baseEnv emptyRegistry 5 [0, 0, 0] = (emptyRegistry, []) :=
  ⟨(C4_out_of_range_index_dropped baseEnv emptyRegistry 5 [0, 0, 0, 0]
      (by decide)).1,
   (C4_out_of_range_index_dropped baseEnv emptyRegistry 5 [0, 0, 0]
      (by decide)).2.1⟩

/-- Counterexample to claim C5: a well-framed command-complete packet for
READ_VERSION whose reply body is empty (an undersized reply payload, with
no version value in it at all) is fatal — the process aborts — although
the claim says every undersized reply is recovered by dropping the one
message. -/
theorem C5_counterexample_short_version_reply_fatal :
    mgmt_event baseEnv initState [1, 0, 0, 0, 3, 0, 1, 0, 0] = none := by
  decide

/-- List.getD after List.drop. -/
theorem getD_drop {α : Type} (l : List α) (n m : Nat) (d : α) :
    (l.drop n).getD m d = l.getD (n + m) d := by
  induction n generalizing l with
  | zero => simp
  | succ k ih =>
    cases l with
    | nil => simp
    | cons x xs => simp [Nat.succ_add, ih xs]

/-- Reading the first byte after dropping the 3-byte completion header. -/
theorem getD_drop3 {α : Type} (l : List α) (d : α) :
    (l.drop 3).getD 0 d = l.getD 3 d :=
  getD_drop l 3 0 d

/-- An if-expression of two present options is present. -/
theorem isSome_ite {α : Type} (c : Prop) [Decidable c] (x y : Option α)
    (hx : x.isSome = true) (hy : y.isSome = true) :
    (if c then x else y).isSome = true := by
  split_ifs <;> assumption

/-- mgmt_cmd_complete aborts exactly on a READ_VERSION completion whose
reply body is undersized or carries version 0. -/
theorem mgmt_cmd_complete_none_iff (env : Env) (s : MgmtState) (index : Nat)
    (buf : List Nat) :
    mgmt_cmd_complete env s index buf = none ↔
      (3 ≤ buf.length ∧ bt_get_le16 buf = MGMT_OP_READ_VERSION ∧
       (buf.length < 6 ∨ buf.getD 3 0 = 0)) := by
  by_cases h0 : buf.length < 3
  · have hL : mgmt_cmd_complete env s index buf = some (s, []) := by
      simp only [mgmt_cmd_complete]
      rw [if_pos h0]
    rw [hL]
    constructor
    · intro h; exact Option.noConfusion h
    · rintro ⟨ha, -, -⟩; omega
  by_cases h5 : bt_get_le16 buf = MGMT_OP_READ_VERSION
  · have hL : mgmt_cmd_complete env s index buf =
        (read_version_complete (buf.drop 3)).map
          (fun v => ({ s with version := v.1, revision := v.2.1 }, v.2.2)) := by
      simp only [mgmt_cmd_complete]
      rw [if_neg h0, if_pos h5]
    rw [hL, Option.map_eq_none']
    unfold read_version_complete
    by_cases h6 : (buf.drop 3).length < 3
    · rw [if_pos h6]
      have h6a : buf.length < 6 := by
        rw [List.length_drop] at h6; omega
      constructor
      · intro _; exact ⟨by omega, h5, Or.inl h6a⟩
      · intro _; rfl
    · by_cases h7 : (buf.drop 3).getD 0 0 < 1
      · rw [if_neg h6, if_pos h7]
        have h7a : buf.getD 3 0 = 0 := by
          rw [getD_drop3] at h7; omega
        constructor
        · intro _; exact ⟨by omega, h5, Or.inr h7a⟩
        · intro _; rfl
      · rw [if_neg h6, if_neg h7]
        rw [getD_drop3] at h7
        rw [List.length_drop] at h6
        constructor
        · intro h; exact Option.noConfusion h
        · rintro ⟨-, -, hf | hf⟩ <;> omega
  · have hv : (mgmt_cmd_complete env s index buf).isSome = true := by
      simp only [mgmt_cmd_complete]
      rw [if_neg h0, if_neg h5]
      repeat (first | rfl | apply isSome_ite)
    constructor
    · intro h
      rw [h] at hv
      exact Bool.noConfusion hv
    · rintro ⟨-, hb, -⟩; exact absurd hb h5

/-- Claim C5 (amended): processing a packet is fatal exactly when it is a
well-framed command-complete for READ_VERSION whose reply body is either
shorter than 3 bytes (payload shorter than 6) or carries version 0 (below
the minimum 1); every other packet — including every other undersized
payload — is handled by dropping at most that one message. -/
theorem C5_fatal_only_in_version_negotiation :
    ∀ (env : Env) (s : MgmtState) (packet : List Nat),
      mgmt_event env s packet = none ↔
        (6 ≤ packet.length ∧
         packet.length = 6 + bt_get_le16 (packet.drop 4) ∧
         bt_get_le16 packet = MGMT_EV_CMD_COMPLETE ∧
         3 ≤ (packet.drop 6).length ∧
         bt_get_le16 (packet.drop 6) = MGMT_OP_READ_VERSION ∧
         ((packet.drop 6).length < 6 ∨ (packet.drop 6).getD 3 0 = 0)) := by
  intro env s packet
  by_cases h1 : packet.length < 6
  · have hL : mgmt_event env s packet = some (s, []) := by
      simp only [mgmt_event]
      rw [if_pos h1]
    rw [hL]
    constructor
    · intro h; exact Option.noConfusion h
    · rintro ⟨ha, -⟩; omega
  by_cases h2 : packet.length ≠ 6 + bt_get_le16 (packet.drop 4)
  · have hL : mgmt_event env s packet = some (s, []) := by
      simp only [mgmt_event]
      rw [if_neg h1, if_pos h2]
    rw [hL]
    constructor
    · intro h; exact Option.noConfusion h
    · rintro ⟨-, hb, -⟩; exact absurd hb h2
  by_cases h3 : bt_get_le16 packet = MGMT_EV_CMD_COMPLETE
  · have hL : mgmt_event env s packet =
        mgmt_cmd_complete env s (bt_get_le16 (packet.drop 2))
          (packet.drop 6) := by
      simp only [mgmt_event]
      rw [if_neg h1, if_neg h2, if_pos h3]
    rw [hL, mgmt_cmd_complete_none_iff]
    constructor
    · rintro ⟨ha, hb, hc⟩
      exact ⟨by omega, by omega, h3, ha, hb, hc⟩
    · rintro ⟨-, -, -, hd, he, hf⟩
      exact ⟨hd, he, hf⟩
  · have hv : (mgmt_event env s packet).isSome = true := by
      simp only [mgmt_event]
      rw [if_neg h1, if_neg h2, if_neg h3]
      repeat (first | rfl | apply isSome_ite)
    constructor
    · intro h
      rw [h] at hv
      exact Bool.noConfusion hv
    · rintro ⟨-, -, hc, -⟩; exact absurd hc h3

/-- Witness for C5 (amended): a version-0 reply is fatal; the same packet
shape with version 1 is not; and an undersized device-found event is
dropped without aborting. -/
theorem C5_fatal_only_in_version_negotiation_witness :
    (mgmt_event baseEnv initState [1, 0, 0, 0, 6, 0, 1, 0, 0, 0, 0, 0] = none ↔
       True) ∧
    (mgmt_event baseEnv initState [1, 0, 0, 0, 6, 0, 1, 0, 0, 1, 0, 0] = none ↔
       False) ∧
    (mgmt_event baseEnv initState [18, 0, 0, 0, 2, 0, 9, 9] = none ↔ False) := by
  refine ⟨?_, ?_, ?_⟩
  · rw [C5_fatal_only_in_version_negotiation baseEnv initState
      [1, 0, 0, 0, 6, 0, 1, 0, 0, 0, 0, 0]]
    decide
  · rw [C5_fatal_only_in_version_negotiation baseEnv initState
      [1, 0, 0, 0, 6, 0, 1, 0, 0, 1, 0, 0]]
    decide
  · rw [C5_fatal_only_in_version_negotiation baseEnv initState
      [18, 0, 0, 0, 2, 0, 9, 9]]
    decide
